import Mathlib

/-!
Verification of the pipeline core of the `feishu-writing-agent` repository
(backend/src/readme_to_feishu/pipeline and services/run_pipeline.py).

Shallow embedding conventions:
* Python `str` is Lean `String`; Python string slicing/stripping is modelled
  character-exactly by the helpers below (`pystrip` is `str.strip()` with the
  default whitespace set, ASCII subset).
* Python dictionaries appear as insertion-ordered association lists
  (`dictSet` replaces in place, appends new keys at the tail, exactly like
  `dict.__setitem__`; iteration order is list order, like `dict.items()`).
* `Context` values are carried in their `str()` image (every claim under
  scrutiny observes context values only through `str(...)` in
  `conditions.resolve_key` or `Context.get_string`).
* Attribute values produced by the DOT parser are modelled by `AttrVal`
  (string / int / bool).  Pure-float literals, which the Python
  `_parse_value` would convert with `float(...)`, are kept as bare strings
  here; no claim concerns float-valued attributes.
-/

namespace RTF

/-- Python's default whitespace set for `str.strip` / `\s` (ASCII part). -/
def isPySpace (c : Char) : Bool :=
  c == ' ' || c == '\t' || c == '\n' || c == '\r' || c == '\x0b' || c == '\x0c'

/-- Python `str.strip()` (no arguments). -/
def pystrip (s : String) : String :=
  String.mk (((s.data.dropWhile isPySpace).reverse.dropWhile isPySpace).reverse)

/-- Python `str.lstrip()`. -/
def pylstrip (s : String) : String := String.mk (s.data.dropWhile isPySpace)

/-- Python `str.strip('"')`: remove all leading and trailing quote characters. -/
def stripQuotes (s : String) : String :=
  String.mk (((s.data.dropWhile (· == '"')).reverse.dropWhile (· == '"')).reverse)

/-- Python string `<` (lexicographic on code points), as a boolean. -/
def charListLt : List Char → List Char → Bool
  | _, [] => false
  | [], _ :: _ => true
  | a :: as, b :: bs => a < b || (a == b && charListLt as bs)

def strLt (a b : String) : Bool := charListLt a.data b.data

/-- `cs` begins with the characters of `lit`. -/
def startsWithLit (cs : List Char) (lit : String) : Bool :=
  cs.take lit.length == lit.data

/-- `cs` ends with the characters of `lit`. -/
def endsWithLit (cs : List Char) (lit : String) : Bool :=
  cs.drop (cs.length - lit.length) == lit.data && lit.length <= cs.length

/-- Python `s.split(sep)` for a non-empty separator, by a left-to-right
non-overlapping scan (fuel-based so that concrete instances reduce in the
kernel; the fuel supplied always exceeds the character count). -/
def pysplitGo (sep : List Char) : Nat -> List Char -> List Char ->
    List (List Char) -> List (List Char)
  | 0, cs, cur, acc => acc ++ [cur ++ cs]
  | fuel + 1, cs, cur, acc =>
    if cs.take sep.length == sep && !sep.isEmpty then
      pysplitGo sep fuel (cs.drop sep.length) [] (acc ++ [cur])
    else
      match cs with
      | [] => acc ++ [cur]
      | c :: t => pysplitGo sep fuel t (cur ++ [c]) acc

def pysplit (sep : String) (s : String) : List String :=
  (pysplitGo sep.data (s.data.length + 1) s.data [] []).map String.mk

/-- Python `s.replace(pat, rep)` for a non-empty pattern (left-to-right,
non-overlapping); an empty pattern is never passed by this development. -/
def pyreplaceGo (pat rep : List Char) : Nat -> List Char -> List Char -> List Char
  | 0, cs, acc => acc ++ cs
  | fuel + 1, cs, acc =>
    if cs.take pat.length == pat && !pat.isEmpty then
      pyreplaceGo pat rep fuel (cs.drop pat.length) (acc ++ rep)
    else
      match cs with
      | [] => acc
      | c :: t => pyreplaceGo pat rep fuel t (acc ++ [c])

def pyreplace (pat rep s : String) : String :=
  String.mk (pyreplaceGo pat.data rep.data (s.data.length + 1) s.data [])

/-- Python `s.lower()` (ASCII range, like every label in this code base). -/
def pylower (s : String) : String := String.mk (s.data.map Char.toLower)

/-- Attribute values as produced by the DOT parser (`_parse_value`). -/
inductive AttrVal where
  | s (v : String)
  | i (v : Int)
  | b (v : Bool)
  deriving Repr, DecidableEq

/-- Python `str(v)` on an attribute value (`str(True) = "True"`). -/
def AttrVal.toStr : AttrVal → String
  | .s v => v
  | .i v => toString v
  | .b true => "True"
  | .b false => "False"

/-- Python truthiness `bool(v)` of an optional attribute value
(`None` is falsy). -/
def attrTruthy : Option AttrVal → Bool
  | none => false
  | some (.s v) => v != ""
  | some (.i v) => v != 0
  | some (.b v) => v

/-- Python `int(v)` on an attribute value; a non-numeric string raises. -/
def AttrVal.toIntE : AttrVal → Except String Int
  | .i v => .ok v
  | .b true => .ok 1
  | .b false => .ok 0
  | .s v =>
    let t := pystrip v
    let core := if startsWithLit t.data "-" || startsWithLit t.data "+" then t.drop 1 else t
    if core != "" && core.data.all Char.isDigit then
      let n : Int := Int.ofNat (core.data.foldl (fun a c => a * 10 + (c.toNat - 48)) 0)
      .ok (if startsWithLit t.data "-" then -n else n)
    else
      .error ("invalid literal for int() with base 10: " ++ v)

/-- Insertion-ordered dictionary update (Python `d[k] = v`). -/
def dictSet {α : Type} : List (String × α) → String → α → List (String × α)
  | [], k, v => [(k, v)]
  | (k', v') :: t, k, v =>
    if k' == k then (k', v) :: t else (k', v') :: dictSet t k v

/-- Dictionary lookup (Python `d.get(k)`), first binding wins. -/
def dictGet {α : Type} (m : List (String × α)) (k : String) : Option α :=
  (m.find? (fun p => p.1 == k)).map (·.2)

/-- Python `d.update(other)` in iteration order of `other`. -/
def dictUpdate {α : Type} (m other : List (String × α)) : List (String × α) :=
  other.foldl (fun acc p => dictSet acc p.1 p.2) m

/-! ### pipeline/outcome.py -/

inductive StageStatus where
  | success
  | fail
  | partSuccess
  | retry
  | skipped
  deriving Repr, DecidableEq

/-- The `str`-Enum value of a `StageStatus` (source: `StageStatus` members;
`partSuccess` embeds the source's PARTIAL_SUCCESS member). -/
def StageStatus.value : StageStatus → String
  | .success => "success"
  | .fail => "fail"
  | .partSuccess => "partial_success"
  | .retry => "retry"
  | .skipped => "skipped"

/-- `Outcome` dataclass.  `suggested_next_ids = None` and `= []` are observably
identical (both falsy, both iterate to nothing), so a plain list is used;
`context_updates` likewise, with values in their `str()` image. -/
structure Outcome where
  status : StageStatus
  preferred_label : String := ""
  suggested_next_ids : List String := []
  context_updates : List (String × String) := []
  notes : String := ""
  failure_reason : String := ""
  deriving Repr, DecidableEq

/-! ### pipeline/context.py

`Context` is a mutable key-value store; its mutable state is the `_values`
dict, threaded explicitly.  The `_logs` buffer is write-only from the
engine's point of view and is not modelled. -/

abbrev Ctx : Type := List (String × String)

def ctxSet (c : Ctx) (k v : String) : Ctx := dictSet c k v

def ctxGet (c : Ctx) (k : String) : Option String := dictGet c k

/-- `Context.get_string`. -/
def ctxGetString (c : Ctx) (k : String) : String := (ctxGet c k).getD ""

/-- `Context.apply_updates`. -/
def ctxApplyUpdates (c : Ctx) (updates : List (String × String)) : Ctx :=
  dictUpdate c updates

/-! ### pipeline/graph.py -/

structure Node where
  id : String
  label : String := ""
  shape : String := "box"
  type : String := ""
  prompt : String := ""
  attrs : List (String × AttrVal) := []
  deriving Repr, DecidableEq

def Node.display_name (n : Node) : String := if n.label != "" then n.label else n.id

structure Edge where
  from_node : String
  to_node : String
  label : String := ""
  condition : String := ""
  weight : Int := 0
  deriving Repr, DecidableEq

structure Graph where
  name : String := ""
  goal : String := ""
  label : String := ""
  nodes : List (String × Node) := []
  edges : List Edge := []
  graph_attrs : List (String × AttrVal) := []
  deriving Repr, DecidableEq

def Graph.get_node (g : Graph) (node_id : String) : Option Node :=
  dictGet g.nodes node_id

def Graph.outgoing_edges (g : Graph) (node_id : String) : List Edge :=
  g.edges.filter (fun e => e.from_node == node_id)

/-- `Graph.find_start_node`: first node with shape `Mdiamond`, else id
`start`, else id `Start` (the Python `x and "start" or ...` idiom). -/
def Graph.find_start_node (g : Graph) : Option String :=
  match g.nodes.find? (fun p => p.2.shape == "Mdiamond") with
  | some p => some p.1
  | none =>
    if (dictGet g.nodes "start").isSome then some "start"
    else if (dictGet g.nodes "Start").isSome then some "Start"
    else none

def Graph.is_terminal (g : Graph) (node_id : String) : Bool :=
  match g.get_node node_id with
  | none => false
  | some n =>
    n.shape == "Msquare" || pylower node_id == "exit" || pylower node_id == "end"

/-! ### pipeline/conditions.py -/

/-- `resolve_key`.  Note the source slices `key[9:]` after testing the
8-character prefix `"context."`; the embedding reproduces that slice. -/
def resolve_key (key : String) (outcome : Outcome) (context : Ctx) : String :=
  let key := pystrip key
  if key == "outcome" then outcome.status.value
  else if key == "preferred_label" then outcome.preferred_label
  else if startsWithLit key.data "context." then
    match ctxGet context (pystrip (key.drop 9)) with
    | some v => v
    | none =>
      match ctxGet context key with
      | some v => v
      | none => ""
  else
    match ctxGet context key with
    | some v => v
    | none => ""

/-- `evaluate_clause`.  Python `clause.split(sep, 1)` is recovered from
`pysplit` by re-joining the tail; `[]` scrutinee branches are unreachable
(`pysplit` never returns an empty list). -/
def evaluate_clause (clause : String) (outcome : Outcome) (context : Ctx) : Bool :=
  let clause := pystrip clause
  match pysplit "!=" clause with
  | [_] =>
    match pysplit "=" clause with
    | [_] => resolve_key clause outcome context != ""
    | [] => false
    | key :: rest =>
      let val := stripQuotes (pystrip (String.intercalate "=" rest))
      resolve_key (pystrip key) outcome context == val
  | [] => false
  | key :: rest =>
    let val := stripQuotes (pystrip (String.intercalate "!=" rest))
    resolve_key (pystrip key) outcome context != val

/-- `evaluate_condition`: conjunction of `&&`-clauses; empty / whitespace-only
conditions hold vacuously. -/
def evaluate_condition (condition : String) (outcome : Outcome) (context : Ctx) : Bool :=
  if condition == "" || pystrip condition == "" then true
  else
    ((pysplit "&&" condition).filterMap
        (fun c => if pystrip c == "" then none else some (pystrip c))).all
      (fun c => evaluate_clause c outcome context)

/-! ### pipeline/engine.py : _normalize_label and select_edge -/

/-- Python `s.split("]", 1)[1]`: everything after the first `"]"` (only
called when one exists). -/
def afterFirstRBracket (s : String) : String :=
  String.mk ((s.data.dropWhile (fun c => c != ']')).drop 1)

/-- `_normalize_label` (engine.py lines 31-40): trim + lowercase, then the
three sequential accelerator-prefix strips (`"]" in s[:4]` is the membership
test on the first four characters). -/
def normalize_label (label : String) : String :=
  let s := pylower (pystrip label)
  let s := if startsWithLit s.data "[" && (s.data.take 4).contains ']' then
      pystrip (afterFirstRBracket s)
    else s
  let s := if s.length >= 2 && (s.drop 1).take 1 == ")" then pystrip (s.drop 2) else s
  let s := if s.length >= 3 && (s.drop 1).take 2 == " -" then pystrip (s.drop 3) else s
  pystrip s

/-- Comparator from `sorted(..., key=lambda e: (-e.weight, e.to_node))`:
`a` sorts strictly before `b`. -/
def edgeBetter (a b : Edge) : Bool :=
  (decide (b.weight < a.weight)) || (a.weight == b.weight && strLt a.to_node b.to_node)

/-- `sorted(es, key=(-weight, to_node))[0]` for the non-empty list `e :: es`:
Python's sort is stable, so the head of the sorted list is the earliest
element with minimal key; a left fold that replaces the current best only on
a strictly smaller key computes exactly that element. -/
def pickByWeight (e : Edge) (es : List Edge) : Edge :=
  es.foldl (fun best x => if edgeBetter x best then x else best) e

/-- Step 3 of `select_edge`: first suggested id that names the destination of
some edge, scanning suggested ids outermost (the empty suggestion list and the
Python falsy-skip of it are observably identical). -/
def findFirstSuggested : List String → List Edge → Option Edge
  | [], _ => none
  | sid :: rest, edges =>
    match edges.find? (fun e => e.to_node == sid) with
    | some e => some e
    | none => findFirstSuggested rest edges

/-- `select_edge` (engine.py lines 43-82). -/
def select_edge (node : Node) (outcome : Outcome) (context : Ctx) (graph : Graph) :
    Option Edge :=
  let edges := graph.outgoing_edges node.id
  if edges.isEmpty then none
  else
    match edges.filter
        (fun e => e.condition != "" && evaluate_condition e.condition outcome context) with
    | e :: es => some (pickByWeight e es)
    | [] =>
      match (if outcome.preferred_label != "" then
          edges.find? (fun e =>
            normalize_label e.label == normalize_label outcome.preferred_label)
        else none) with
      | some e => some e
      | none =>
        match findFirstSuggested outcome.suggested_next_ids edges with
        | some e => some e
        | none =>
          match edges.filter (fun e => e.condition == "") with
          | e :: es => some (pickByWeight e es)
          | [] =>
            match edges with
            | e :: es => some (pickByWeight e es)
            | [] => none

/-! Specification-side rendering of §4.6 of the spec ("Edge selection"),
written from the spec's words: five groups, first non-empty group wins,
null when there are no outgoing edges.  Used by the refinement theorem for
claim C1. -/

/-- Spec: "Pick by (weight DESC, to_node ASC)" out of a group. -/
def specPick : List Edge → Option Edge
  | [] => none
  | e :: es => some (pickByWeight e es)

/-- Spec group 1: edges with a non-empty guard that evaluates true. -/
def specGroup1 (edges : List Edge) (outcome : Outcome) (context : Ctx) : List Edge :=
  edges.filter (fun e => e.condition != "" && evaluate_condition e.condition outcome context)

/-- Spec group 2: if `preferred_label` is non-empty, the first edge whose
normalized label equals the normalized preferred label. -/
def specGroup2 (edges : List Edge) (outcome : Outcome) : Option Edge :=
  if outcome.preferred_label != "" then
    edges.find? (fun e => normalize_label e.label == normalize_label outcome.preferred_label)
  else none

/-- Spec group 3: for each suggested id in order, the first edge whose
destination equals that id. -/
def specGroup3 (edges : List Edge) (outcome : Outcome) : Option Edge :=
  findFirstSuggested outcome.suggested_next_ids edges

/-- Spec §4.6: the five-group cascade. -/
def selectEdgeSpec (node : Node) (outcome : Outcome) (context : Ctx) (graph : Graph) :
    Option Edge :=
  let edges := graph.outgoing_edges node.id
  match specPick (specGroup1 edges outcome context) with
  | some e => some e
  | none =>
    match specGroup2 edges outcome with
    | some e => some e
    | none =>
      match specGroup3 edges outcome with
      | some e => some e
      | none =>
        match specPick (edges.filter (fun e => e.condition == "")) with
        | some e => some e
        | none => specPick edges

/-! ### pipeline/engine.py : PipelineEngine.run

The run loop is embedded with the handler registry abstracted into one
function `Node → Ctx → Outcome × Ctx` (the source's
`self._resolve_handler(node).execute(node, ctx, graph, logs_root)`;
handlers may mutate the context, hence the returned `Ctx`).  Filesystem
artifacts (`mkdir`, `status.json`) have no observable effect on any claim
and are not modelled.  Python's unbounded `while True` is given fuel; an
exhausted fuel is reported as its own result so that no claim ever
concerns a truncated run. -/

structure Event where
  kind : String
  data : List (String × String)
  deriving Repr, DecidableEq

def startedEvent (n : Node) : Event :=
  ⟨"StageStarted", [("node_id", n.id), ("label", n.display_name)]⟩

def completedEvent (n : Node) (o : Outcome) : Event :=
  ⟨"StageCompleted", [("node_id", n.id), ("outcome", o.status.value), ("notes", o.notes)]⟩

def pipelineFailedEvent (nid reason : String) : Event :=
  ⟨"PipelineFailed", [("node_id", nid), ("reason", reason)]⟩

def pipelineCompletedEvent (cur : String) : Event :=
  ⟨"PipelineCompleted", [("current_node", cur)]⟩

/-- Context updates after a handler ran (engine.py lines 156-159). -/
def stepContext (ctx : Ctx) (o : Outcome) : Ctx :=
  let ctx := ctxApplyUpdates ctx o.context_updates
  let ctx := ctxSet ctx "outcome" o.status.value
  if o.preferred_label != "" then ctxSet ctx "preferred_label" o.preferred_label else ctx

/-- The per-entry test of the goal-gate scan (engine.py lines 139-142): the
recorded node exists in the graph, its `goal_gate` attribute is truthy, and
its outcome is neither SUCCESS nor PARTIAL_SUCCESS. -/
def gateCheckPred (g : Graph) (p : String × Outcome) : Bool :=
  match g.get_node p.1 with
  | none => false
  | some n =>
    attrTruthy (dictGet n.attrs "goal_gate") &&
      !(p.2.status == .success || p.2.status == .partSuccess)

/-- Goal-gate scan (engine.py lines 137-142): the first recorded node, in
recording order, failing the gate check. -/
def goalGateFail (recorded : List (String × Outcome)) (g : Graph) :
    Option (String × Outcome) :=
  recorded.find? (gateCheckPred g)

/-- The synthesized FAIL outcome of goal-gate enforcement
(engine.py lines 143-146). -/
def gateFailOutcome (nid : String) (oc : Outcome) : Outcome :=
  { status := .fail
    failure_reason :=
      "Goal gate unsatisfied at node '" ++ nid ++ "': " ++
        (if oc.failure_reason != "" then oc.failure_reason else oc.status.value) }

/-- Outcome returned when the loop ends with no stage executed
(engine.py line 187). -/
def pipelineCompletedOutcome : Outcome :=
  { status := .success, notes := "Pipeline completed" }

/-- Failure-routing candidate set (engine.py lines 171-175): outgoing edges
with a truthy guard that evaluates true against the FAIL outcome and the
updated context. -/
def failRouteEdges (node_id : String) (o : Outcome) (ctx : Ctx) (g : Graph) : List Edge :=
  (g.outgoing_edges node_id).filter
    (fun e => e.condition != "" && evaluate_condition e.condition o ctx)

inductive RunResult where
  | ok (o : Outcome)
  | err (msg : String)
  | fuelOut
  deriving Repr, DecidableEq

structure RunOut where
  result : RunResult
  events : List Event
  ctx : Ctx
  recorded : List (String × Outcome)
  finalNode : String
  atTerminal : Bool
  deriving Repr, DecidableEq

/-- The `while True` body of `PipelineEngine.run` (engine.py lines 129-187),
including the post-loop `PipelineCompleted` emission for the two `break`
paths (terminal with satisfied gates, and no selected edge). -/
def runLoop (handler : Node → Ctx → Outcome × Ctx) (graph : Graph) :
    Nat → String → Ctx → List (String × Outcome) → List Event → Option Outcome → RunOut
  | 0, cur, ctx, recd, evs, _ => ⟨.fuelOut, evs, ctx, recd, cur, false⟩
  | fuel + 1, cur, ctx, recd, evs, lastOutcome =>
    match graph.get_node cur with
    | none => ⟨.err ("Node not found: " ++ cur), evs, ctx, recd, cur, false⟩
    | some node =>
      if graph.is_terminal cur then
        match goalGateFail recd graph with
        | some p =>
          let fo := gateFailOutcome p.1 p.2
          ⟨.ok fo, evs ++ [pipelineFailedEvent p.1 fo.failure_reason], ctx, recd, cur, true⟩
        | none =>
          ⟨.ok (lastOutcome.getD pipelineCompletedOutcome),
            evs ++ [pipelineCompletedEvent cur], ctx, recd, cur, true⟩
      else
        let evs := evs ++ [startedEvent node]
        let hr := handler node ctx
        let outcome := hr.1
        let recd := dictSet recd cur outcome
        let ctx := stepContext hr.2 outcome
        let evs := evs ++ [completedEvent node outcome]
        if outcome.status == .fail then
          match failRouteEdges node.id outcome ctx graph with
          | [] =>
            ⟨.err ("Stage '" ++ node.id ++ "' failed: " ++ outcome.failure_reason),
              evs, ctx, recd, cur, false⟩
          | e :: es =>
            runLoop handler graph fuel (pickByWeight e es).to_node ctx recd evs (some outcome)
        else
          match select_edge node outcome ctx graph with
          | none =>
            ⟨.ok (outcome), evs ++ [pipelineCompletedEvent cur], ctx, recd, cur, false⟩
          | some e =>
            runLoop handler graph fuel e.to_node ctx recd evs (some outcome)

/-- `PipelineEngine.run` entry (engine.py lines 111-128): seed the context
with graph metadata, resolve the start node (raising when absent), then loop. -/
def runEngine (handler : Node → Ctx → Outcome × Ctx) (graph : Graph)
    (context : Option Ctx) (fuel : Nat) : RunOut :=
  let ctx := context.getD []
  let ctx := ctxSet ctx "graph.goal" graph.goal
  let ctx := ctxSet ctx "graph.label" graph.label
  match graph.find_start_node with
  | none => ⟨.err "No start node (shape=Mdiamond or id=start) found", [], ctx, [], "", false⟩
  | some start_id => runLoop handler graph fuel start_id ctx [] [] none

/-! ### pipeline/handlers/tool.py

`subprocess.run(command, shell=True, capture_output=True, text=True,
timeout=300, cwd=context.get("work_dir") or ".")` is abstracted into an
oracle `runCmd : AttrVal → ExecResult` describing how the operating system
reacts to the command value (the working-directory choice is part of that
abstracted environment).  A registered executor call
`self.executors[tool_name](...)` is abstracted into its result: a normal
`Outcome` or a raised message. -/

inductive ExecResult where
  | finished (returncode : Int) (stdout : String) (stderr : String)
  | timedOut
  | raised (msg : String)
  deriving Repr, DecidableEq

/-- Python `a or b` over optional attribute values (`get("tool") or
get("tool_command")`). -/
def pyAttrOr (a b : Option AttrVal) : Option AttrVal :=
  if attrTruthy a then a else b

/-- The executor-registry branch guard of `ToolHandler.execute` (tool.py
lines 33-38): the behavior of the registered executor for the resolved tool
name, when `tool_name` is a string registered in `executors`. -/
def toolResolveExecutor (executors : List (String × Except String Outcome))
    (node : Node) : Option (Except String Outcome) :=
  match pyAttrOr (dictGet node.attrs "tool") (dictGet node.attrs "tool_command") with
  | some (.s name) => dictGet executors name
  | _ => none

/-- The subprocess branch of `ToolHandler.execute` (tool.py lines 40-65). -/
def toolRunCommand (runCmd : AttrVal → ExecResult) (node : Node) : Outcome :=
  let command := (dictGet node.attrs "tool_command").getD (.s "")
  if !attrTruthy (some command) then
    { status := .fail, failure_reason := "No tool_command or registered tool specified" }
  else
    match runCmd command with
    | .finished rc stdout stderr =>
      let out := stdout ++ stderr
      { status := if rc == 0 then .success else .fail
        context_updates := [("tool.output", out)]
        notes := "Tool completed: " ++ command.toStr
        failure_reason :=
          if rc == 0 then "" else (if out != "" then out else "exit code " ++ toString rc) }
    | .timedOut => { status := .fail, failure_reason := "Tool timed out" }
    | .raised msg => { status := .fail, failure_reason := msg }

/-- `ToolHandler.execute`. -/
def toolExecute (executors : List (String × Except String Outcome))
    (runCmd : AttrVal → ExecResult) (node : Node) : Outcome :=
  match toolResolveExecutor executors node with
  | some (.ok o) => o
  | some (.error msg) => { status := .fail, failure_reason := msg }
  | none => toolRunCommand runCmd node

/-! ### services/run_pipeline.py : run_task

The task runner is embedded at the seam of its `try/except` around
`engine.run` (run_pipeline.py lines 297-312).  The engine run is the
`runEngine` embedding above; the SSE `on_event` callback's per-node synthetic
progress events (lines 270-277) are reproduced by `taskEventsOf`.  The task
record is the `_task_store[task_id]` value after `run_task` returns; `result`
is the stored dict as an association list (the error-branch dict carries only
`status` and `failure_reason`, exactly as in the source).  Event payloads
that are not strings (`progress` counts, the nested result dict of the
run-local trailing event) are carried as their decimal-string image or
omitted next to the record's own `result` field.  Crucially, the stored
record's event list is **not** the run-local `events` list once any engine
event fired: `on_event` re-binds `_task_store[task_id]["events"]` to the
snapshot copy `list(events)` at every event, so the trailing append after
`engine.run` reaches the record only when no engine event was emitted. -/

def step_progress : List (String × Nat) :=
  [("parsing", 25), ("understanding", 50), ("converting", 75), ("publishing", 100)]

def step_names : List (String × String) :=
  [("fetch_input", "parsing"), ("parse", "parsing"), ("understand", "understanding"),
    ("convert", "converting"), ("publish", "publishing")]

/-- The `on_event` callback of `run_task`: append the engine event, then a
synthetic progress event when the node id is one of the five named steps. -/
def taskEventsOf (engineEvents : List Event) : List Event :=
  engineEvents.flatMap (fun e =>
    let node_id := (dictGet e.data "node_id").getD ""
    match dictGet step_names node_id with
    | some step =>
      [e, ⟨"progress", [("step", step),
        ("progress", toString ((dictGet step_progress step).getD 0))]⟩]
    | none => [e])

structure TaskRecord where
  status : String
  events : List Event
  result : Option (List (String × String))
  deriving Repr, DecidableEq

/-- The structured result dict built on normal engine return
(run_pipeline.py lines 299-304). -/
def taskResultOf (outcome : Outcome) (ctx : Ctx) : List (String × String) :=
  [("feishu_doc_url", ctxGetString ctx "feishu_doc_url"),
    ("feishu_document_id", ctxGetString ctx "feishu_document_id"),
    ("status", if outcome.status == .success then "success" else "failed"),
    ("failure_reason", outcome.failure_reason)]

/-- `run_task` after the engine run settles: the `_task_store[task_id]`
record.  Its `status` and `result` fields are mutated on the stored dict
(lines 305-310) and always reflect the run.  Its `events` entry, however, is
re-bound by `on_event` to a snapshot copy `list(events)` at every engine
event (line 277), detaching it from the run-local `events` list; the
trailing `progress`/`error` append after the run (lines 307/311) mutates
only the local list, so it reaches the stored record exactly when the engine
emitted no event at all (the record then still aliases the original list
installed at line 279).  A fuel-exhausted embedded run corresponds to a
Python run that has not yet returned: the record keeps its `running`
shape. -/
def runTask (handler : Node → Ctx → Outcome × Ctx) (graph : Graph) (ctx0 : Ctx)
    (fuel : Nat) : TaskRecord :=
  let out := runEngine handler graph (some ctx0) fuel
  let snap := taskEventsOf out.events
  match out.result with
  | .ok outcome =>
    { status := "completed"
      result := some (taskResultOf outcome out.ctx)
      events := if out.events.isEmpty then
          snap ++ [⟨"progress", [("step", "publishing"), ("progress", "100")]⟩]
        else snap }
  | .err msg =>
    { status := "failed"
      result := some [("status", "failed"), ("failure_reason", msg)]
      events := if out.events.isEmpty then
          snap ++ [⟨"error", [("message", msg)]⟩]
        else snap }
  | .fuelOut => { status := "running", result := none, events := snap }

/-! ### pipeline/dot_parser.py

The source parser works with `re` patterns over strings plus manual index
arithmetic.  Each regex used is simple enough to admit an exact scanner:
`\w` is modelled by ASCII alphanumerics plus underscore, `\s` by `isPySpace`.
Every scanner returns the match's captures together with `match.end()` (the
number of characters consumed from the start of the scanned list), so the
source's `pos` bookkeeping — including the quirk that the chain loop adds
`next_arrow.end()` (measured after an `lstrip`) to a position measured
before it — transfers verbatim.  Loops that the source runs unbounded get
fuel; `parse_dot` supplies enough fuel that it is never exhausted (the
source loop consumes at least one character per iteration). -/

def isWChar (c : Char) : Bool := c.isAlphanum || c == '_'

/-- Leading `(\w+)` capture with its length. -/
def takeWord (cs : List Char) : Option (String × Nat) :=
  let w := cs.takeWhile isWChar
  if w.isEmpty then none else some (String.mk w, w.length)

def countSpaces (cs : List Char) : Nat := (cs.takeWhile isPySpace).length

/-- `re.match(r"digraph\s+(\w+)\s*\{", text)`. -/
def matchHeader (cs : List Char) : Option (String × Nat) :=
  if startsWithLit cs "digraph" then
    let cs1 := cs.drop 7
    let ns := countSpaces cs1
    if ns == 0 then none
    else
      match takeWord (cs1.drop ns) with
      | none => none
      | some (name, wl) =>
        let cs3 := (cs1.drop ns).drop wl
        let ns2 := countSpaces cs3
        match cs3.drop ns2 with
        | '{' :: _ => some (name, 7 + ns + wl + ns2 + 1)
        | _ => none
  else none

/-- `re.match(lit + r"\s*\[(.*?)\]", rest, re.DOTALL)` for a literal keyword:
the lazy group reaches the first `]` (quote-unaware, like the regex). -/
def matchLitBracket (lit : String) (cs : List Char) : Option (List Char × Nat) :=
  if startsWithLit cs lit then
    let n0 := lit.length
    let ns := countSpaces (cs.drop n0)
    match (cs.drop n0).drop ns with
    | '[' :: t =>
      let inner := t.takeWhile (· != ']')
      if inner.length == t.length then none
      else some (inner, n0 + ns + 1 + inner.length + 1)
    | _ => none
  else none

/-- `re.match(r"(\w+)\s*=\s*([^;]+);?", rest)`. -/
def matchDecl (cs : List Char) : Option (String × String × Nat) :=
  match takeWord cs with
  | none => none
  | some (k, kl) =>
    let ns := countSpaces (cs.drop kl)
    match (cs.drop kl).drop ns with
    | '=' :: t =>
      let ns2 := countSpaces t
      let v := (t.drop ns2).takeWhile (· != ';')
      if v.isEmpty then none
      else
        let base := kl + ns + 1 + ns2 + v.length
        match (t.drop ns2).drop v.length with
        | ';' :: _ => some (k, String.mk v, base + 1)
        | _ => some (k, String.mk v, base)
    | _ => none

/-- `re.match(r"(\w+)\s*\[", rest)`: returns the id and `match.end()`
(one past the bracket). -/
def matchNodeStart (cs : List Char) : Option (String × Nat) :=
  match takeWord cs with
  | none => none
  | some (nid, wl) =>
    let ns := countSpaces (cs.drop wl)
    match (cs.drop wl).drop ns with
    | '[' :: _ => some (nid, wl + ns + 1)
    | _ => none

/-- The manual quote-aware scan of dot_parser.py lines 131-152: offset of the
first unquoted `]` (a quote preceded by a backslash does not toggle). -/
def scanAttrEnd : List Char → Char → Bool → Option Nat
  | [], _, _ => none
  | c :: t, prev, inq =>
    if c == '"' && prev != '\\' then (scanAttrEnd t c (!inq)).map (· + 1)
    else if c == ']' && !inq then some 0
    else (scanAttrEnd t c inq).map (· + 1)

/-- The optional `(\s*\[(.*?)\])?;?` suffix of the edge regexes, scanned at
the given list position; returns the optional inner attribute text and the
consumed length (backtracking the `\s*` when no bracket group matches, as
the regex engine does). -/
def matchOptAttrSemi (cs : List Char) : Option (List Char) × Nat :=
  let ns := countSpaces cs
  let withAttr : Option (List Char × Nat) :=
    match cs.drop ns with
    | '[' :: t =>
      let inner := t.takeWhile (· != ']')
      if inner.length == t.length then none
      else some (inner, ns + 1 + inner.length + 1)
    | _ => none
  match withAttr with
  | some (inner, n) =>
    match cs.drop n with
    | ';' :: _ => (some inner, n + 1)
    | _ => (some inner, n)
  | none =>
    match cs with
    | ';' :: _ => (none, 1)
    | _ => (none, 0)

/-- `re.match(r"(\w+)\s*->\s*(\w+)(\s*\[(.*?)\])?;?", rest, re.DOTALL)`. -/
def matchEdge (cs : List Char) : Option (String × String × Option (List Char) × Nat) :=
  match takeWord cs with
  | none => none
  | some (f, fl) =>
    let ns1 := countSpaces (cs.drop fl)
    match (cs.drop fl).drop ns1 with
    | '-' :: '>' :: t =>
      let ns2 := countSpaces t
      match takeWord (t.drop ns2) with
      | none => none
      | some (toId, tl) =>
        let base := fl + ns1 + 2 + ns2 + tl
        let (oattr, n) := matchOptAttrSemi ((t.drop ns2).drop tl)
        some (f, toId, oattr, base + n)
    | _ => none

/-- `re.match(r"->\s*\w+", rest_check)`. -/
def matchArrowW (cs : List Char) : Bool :=
  match cs with
  | '-' :: '>' :: t => !((t.dropWhile isPySpace).takeWhile isWChar).isEmpty
  | _ => false

/-- `re.match(r"->\s*(\w+)(\s*\[(.*?)\])?;?", rest_check, re.DOTALL)`. -/
def matchNextArrow (cs : List Char) : Option (String × Option (List Char) × Nat) :=
  match cs with
  | '-' :: '>' :: t =>
    let ns := countSpaces t
    match takeWord (t.drop ns) with
    | none => none
    | some (toId, tl) =>
      let (oattr, n) := matchOptAttrSemi ((t.drop ns).drop tl)
      some (toId, oattr, 2 + ns + tl + n)
  | _ => none

/-- `re.match(r"(\w+)\s*;?\s*", rest)` (the trailing spaces are part of
`match.end()`). -/
def matchNodeBare (cs : List Char) : Option (String × Nat) :=
  match takeWord cs with
  | none => none
  | some (nid, wl) =>
    let ns := countSpaces (cs.drop wl)
    match (cs.drop wl).drop ns with
    | ';' :: t => some (nid, wl + ns + 1 + countSpaces t)
    | _ => some (nid, wl + ns)

/-- `_parse_value`.  Deviation (documented in the header comment): the
`float(s)` fallback of the source is not modelled, so a float literal stays
a bare string; no claim involves float-valued attributes. -/
def parse_value (s : String) : AttrVal :=
  let s := pystrip s
  if startsWithLit s.data "\"" && endsWithLit s.data "\"" then
    .s (pyreplace "\\\\" "\\"
        (pyreplace "\\\"" "\""
          (pyreplace "\\t" "\t"
            (pyreplace "\\n" "\n" ((s.drop 1).dropRight 1)))))
  else if pylower s == "true" then .b true
  else if pylower s == "false" then .b false
  else
    match (AttrVal.s s).toIntE with
    | .ok n => .i n
    | .error _ => .s s

/-- One comma-part commit of `_parse_attr_block` (`k = v` or skipped). -/
def commitAttrPart (current : List Char) (attrs : List (String × AttrVal)) :
    List (String × AttrVal) :=
  let part := pystrip (String.mk current)
  match pysplit "=" part with
  | [_] => attrs
  | [] => attrs
  | k :: rest =>
    dictSet attrs (pystrip k) (parse_value (pystrip (String.intercalate "=" rest)))

/-- The character loop of `_parse_attr_block` (comma split respecting quotes;
a quote preceded by a backslash in the current part does not toggle). -/
def attrBlockGo : List Char → List Char → Bool → List (String × AttrVal) →
    List (String × AttrVal)
  | [], current, _, attrs => commitAttrPart current attrs
  | c :: t, current, inq, attrs =>
    if c == '"' && (current.isEmpty || current.getLast? != some '\\') then
      attrBlockGo t (current ++ [c]) (!inq) attrs
    else if c == ',' && !inq then attrBlockGo t [] inq (commitAttrPart current attrs)
    else attrBlockGo t (current ++ [c]) inq attrs

/-- `_parse_attr_block`, taking the text between the brackets (every source
call site passes a bracket-wrapped string and the function immediately strips
the brackets back off with `content[1:-1]`). -/
def parse_attr_block (x : List Char) : List (String × AttrVal) :=
  attrBlockGo (pystrip (String.mk x)).data [] false []

def attrGetStrD (m : List (String × AttrVal)) (k : String) (d : String) : String :=
  ((dictGet m k).getD (.s d)).toStr

/-- Node construction from a resolved attribute dict
(dot_parser.py lines 141-149 and 200-209). -/
def mkNodeFromAttrs (nid : String) (attrs : List (String × AttrVal)) : Node :=
  { id := nid
    label := attrGetStrD attrs "label" nid
    shape := attrGetStrD attrs "shape" "box"
    type := attrGetStrD attrs "type" ""
    prompt := attrGetStrD attrs "prompt" ""
    attrs := attrs }

/-- Edge construction (dot_parser.py lines 165-173 and 182-190);
`int(attrs.get("weight", 0))` can raise on a non-numeric string. -/
def mkEdgeFromAttrs (f t : String) (attrs : List (String × AttrVal)) :
    Except String Edge :=
  match ((dictGet attrs "weight").getD (.i 0)).toIntE with
  | .error msg => .error msg
  | .ok w =>
    .ok { from_node := f, to_node := t
          label := attrGetStrD attrs "label" ""
          condition := attrGetStrD attrs "condition" ""
          weight := w }

/-- `_strip_comments` step 1: `re.sub(r"//[^\n]*", "", text)` (the newline
survives; the scan is string-literal-unaware, like the regex). -/
def rmLineGo : Bool → List Char → List Char
  | _, [] => []
  | true, c :: t => if c == '\n' then c :: rmLineGo false t else rmLineGo true t
  | false, '/' :: '/' :: t => rmLineGo true t
  | false, c :: t => c :: rmLineGo false t

/-- Position after the first `*/`, when one exists. -/
def dropThroughClose : List Char → Option (List Char)
  | [] => none
  | '*' :: '/' :: t => some t
  | _ :: t => dropThroughClose t

/-- `_strip_comments` step 2: `re.sub(r"/\*.*?\*/", "", text, flags=DOTALL)`;
an unclosed `/*` matches nothing and the remaining text is kept verbatim. -/
def rmBlockGo (fuel : Nat) (cs : List Char) : List Char :=
  match fuel, cs with
  | 0, cs => cs
  | _, [] => []
  | fuel + 1, '/' :: '*' :: t =>
    match dropThroughClose t with
    | some rest => rmBlockGo fuel rest
    | none => '/' :: '*' :: t
  | fuel + 1, c :: t => c :: rmBlockGo fuel t

def strip_comments (text : String) : String :=
  let cs := rmLineGo false text.data
  String.mk (rmBlockGo (cs.length + 1) cs)

structure PState where
  graph : Graph
  node_defaults : List (String × AttrVal)
  edge_defaults : List (String × AttrVal)

/-- The chain loop of dot_parser.py lines 176-194: further `-> id [attrs]`
hops re-use the `attrs` dict of the first hop; a per-hop attribute block is
consumed by `next_arrow` but its content is never read.  `pos` advances by
`next_arrow.end()`, which was measured after an `lstrip` whose dropped
length the source forgets to add — reproduced exactly. -/
def chainLoop (graph0 : Graph) : Nat → List Char → Nat → String →
    List (String × AttrVal) → Except String (Nat × Graph)
  | 0, _, pos, _, _ => .ok (pos, graph0)
  | fuel + 1, rest, pos, prevTo, attrs =>
    let rest_check := (rest.drop pos).dropWhile isPySpace
    if matchArrowW rest_check then
      match matchNextArrow rest_check with
      | some (toId, _ignoredPerHopAttr, e) =>
        match mkEdgeFromAttrs prevTo toId attrs with
        | .error msg => .error msg
        | .ok edge =>
          chainLoop { graph0 with edges := graph0.edges ++ [edge] }
            fuel rest (pos + e) toId attrs
      | none => .ok (pos, graph0)
    else .ok (pos, graph0)

/-- The statement loop of `parse_dot` (dot_parser.py lines 91-212), with the
source's `pos`/`rest` bookkeeping: `rest` is re-sliced and left-stripped at
each iteration top, matchers assign a fresh `pos`, and an unmatched head
increments the stale `pos`. -/
def parseLoop : Nat → Nat → List Char → PState → Except String PState
  | 0, _, _, st => .ok st
  | fuel + 1, pos, rest0, st =>
    if pos < rest0.length then
      let rest := (rest0.drop pos).dropWhile isPySpace
      if rest.isEmpty then .ok st
      else
        match matchLitBracket "graph" rest with
        | some (inner, e) =>
          let ga := parse_attr_block inner
          let g := st.graph
          let g := { g with graph_attrs := ga }
          let g := { g with goal := attrGetStrD ga "goal" "" }
          let g := { g with label := attrGetStrD ga "label" "" }
          parseLoop fuel e rest { st with graph := g }
        | none =>
        match matchDecl rest with
        | some (k, v, e) =>
          let pv := parse_value v
          let g := st.graph
          let g := { g with graph_attrs := dictSet g.graph_attrs k pv }
          let g := if k == "goal" then { g with goal := pv.toStr } else g
          let g := if k == "label" then { g with label := pv.toStr } else g
          parseLoop fuel e rest { st with graph := g }
        | none =>
        match matchLitBracket "node" rest with
        | some (inner, e) =>
          parseLoop fuel e rest { st with node_defaults := parse_attr_block inner }
        | none =>
        match matchLitBracket "edge" rest with
        | some (inner, e) =>
          parseLoop fuel e rest { st with edge_defaults := parse_attr_block inner }
        | none =>
        match matchNodeStart rest with
        | some (nid, bend) =>
          match scanAttrEnd (rest.drop bend) '[' false with
          | some off =>
            let inner := (rest.drop bend).take off
            let attrs := dictUpdate st.node_defaults (parse_attr_block inner)
            let g := st.graph
            let g := if (dictGet g.nodes nid).isSome then g
              else { g with nodes := g.nodes ++ [(nid, mkNodeFromAttrs nid attrs)] }
            parseLoop fuel (bend + off + 1) rest { st with graph := g }
          | none => parseLoop fuel rest.length rest st
        | none =>
        match matchEdge rest with
        | some (f, toId, oinner, e) =>
          let attrs := match oinner with
            | some inner => dictUpdate st.edge_defaults (parse_attr_block inner)
            | none => st.edge_defaults
          match mkEdgeFromAttrs f toId attrs with
          | .error msg => .error msg
          | .ok edge =>
            match chainLoop { st.graph with edges := st.graph.edges ++ [edge] }
                (rest.length + 1) rest e toId attrs with
            | .error msg => .error msg
            | .ok (pos', g') => parseLoop fuel pos' rest { st with graph := g' }
        | none =>
        match matchNodeBare rest with
        | some (nid, e) =>
          let attrs := st.node_defaults
          let g := st.graph
          let g := if (dictGet g.nodes nid).isSome then g
            else { g with nodes := g.nodes ++ [(nid, mkNodeFromAttrs nid attrs)] }
          parseLoop fuel e rest { st with graph := g }
        | none => parseLoop fuel (pos + 1) rest st
    else .ok st

/-- `parse_dot` (on source text; the `Path` overload only reads the file
first). -/
def parse_dot (source : String) : Except String Graph :=
  let text := pystrip (strip_comments source)
  match matchHeader text.data with
  | none => .error "Expected digraph Identifier \x7b ... \x7d"
  | some (name, e) =>
    let rest := ((text.data.drop e).reverse.dropWhile isPySpace).reverse
    let rest := if rest.getLast? == some '}' then rest.dropLast else rest
    match parseLoop (rest.length + 1) 0 rest
        { graph := { name := name }, node_defaults := [], edge_defaults := [] } with
    | .error msg => .error msg
    | .ok st => .ok st.graph

/-! ## Claim theorems -/

/-- C7: Label normalization trims, lowercases, then strips a leading
accelerator prefix of the forms `[X] `, `X) `, `X - `; in particular
`"[Y] Yes"`, `"Y) Yes"` and `"Y - Yes"` all normalize to `"yes"` (the last
two conjuncts witness the trimming and lowercasing steps). -/
theorem C7_label_normalization :
    normalize_label "[Y] Yes" = "yes" ∧
    normalize_label "Y) Yes" = "yes" ∧
    normalize_label "Y - Yes" = "yes" ∧
    normalize_label "  Yes  " = "yes" ∧
    normalize_label "YES" = "yes" :=
  ⟨rfl, rfl, rfl, rfl, rfl⟩

/-- C4 (code bug evidence): `resolve_key` slices `key[9:]` although
`"context."` has 8 characters, so `context.mode` looks up `ode` (not `mode`)
and misses; a key whose name part carries one extra leading character, such
as `context.xmode`, accidentally resolves `mode`; the literal-key fallback
still works. -/
theorem C4_context_key_slice_off_by_one :
    resolve_key "context.mode" { status := .success } [("mode", "rewrite")] = "" ∧
    resolve_key "context.xmode" { status := .success } [("mode", "rewrite")] = "rewrite" ∧
    resolve_key "context.mode" { status := .success }
      [("mode", "rewrite"), ("context.mode", "fallback")] = "fallback" :=
  ⟨rfl, rfl, rfl⟩

/-- C3 (code bug evidence): for the chained declaration
`a -> b -> c [label="x", weight=2]` the parser emits the two edges `a->b` and
`b->c`, but the trailing attribute block is consumed without being applied to
either hop — both edges come out with an empty label and weight 0, against
the source's own comment ("A -> B -> C [label=\"x\"] means A->B and B->C both
get [label=\"x\"]").  An un-chained declaration (last conjunct) does receive
its block. -/
theorem C3_chain_attr_block_dropped :
    (parse_dot "digraph G \x7b a -> b -> c [label=\"x\", weight=2] \x7d").map Graph.edges =
      .ok [{ from_node := "a", to_node := "b" }, { from_node := "b", to_node := "c" }] ∧
    (parse_dot "digraph G \x7b a -> b [label=\"x\", weight=2] \x7d").map Graph.edges =
      .ok [{ from_node := "a", to_node := "b", label := "x", weight := 2 }] :=
  ⟨rfl, rfl⟩

/-- The suggested-ids scan finds nothing among zero edges. -/
theorem findFirstSuggested_nil : ∀ sids : List String, findFirstSuggested sids [] = none := by
  intro sids
  induction sids with
  | nil => rfl
  | cons s t ih => simp [findFirstSuggested, ih]

/-- C1: edge selection follows the strict five-group priority of §4.6
(conjunct 1 is the refinement of the source `select_edge` against the
spec-worded cascade `selectEdgeSpec`); with no outgoing edges it returns
null (conjunct 2); repeated invocations on equal inputs agree (conjunct 3,
definitional — the embedding is a pure function of its arguments); ties
break by weight DESC then to_node ASC (conjuncts 4 and 5: equal weights
pick the lexicographically smaller destination, a higher weight wins over
declaration order and name). -/
theorem C1_edge_selection_priority :
    (∀ (n : Node) (o : Outcome) (c : Ctx) (g : Graph),
      select_edge n o c g = selectEdgeSpec n o c g) ∧
    (∀ (n : Node) (o : Outcome) (c : Ctx) (g : Graph),
      g.outgoing_edges n.id = [] → select_edge n o c g = none) ∧
    (∀ (n : Node) (o : Outcome) (c : Ctx) (g : Graph),
      select_edge n o c g = select_edge n o c g) ∧
    (select_edge { id := "n" } { status := .success } []
      { edges := [⟨"n", "b", "", "", 1⟩, ⟨"n", "a", "", "", 1⟩] } =
      some ⟨"n", "a", "", "", 1⟩) ∧
    (select_edge { id := "n" } { status := .success } []
      { edges := [⟨"n", "b", "", "", 2⟩, ⟨"n", "a", "", "", 1⟩] } =
      some ⟨"n", "b", "", "", 2⟩) := by
  refine ⟨?_, ?_, fun _ _ _ _ => rfl, rfl, rfl⟩
  · intro n o c g
    cases h : g.outgoing_edges n.id with
    | nil =>
      simp [select_edge, selectEdgeSpec, h, specPick, specGroup1, specGroup2, specGroup3,
        findFirstSuggested_nil]
    | cons e es =>
      simp only [select_edge, selectEdgeSpec, h, specPick, specGroup1, specGroup2,
        specGroup3, List.isEmpty_cons]
      cases h1 : (e :: es).filter
          (fun x => x.condition != "" && evaluate_condition x.condition o c) with
      | cons f fs => simp [h1]
      | nil =>
        simp only [h1]
        cases h2 : (if o.preferred_label != "" then
            (e :: es).find? (fun x =>
              normalize_label x.label == normalize_label o.preferred_label)
          else none) with
        | some f => simp [h2]
        | none =>
          simp only [h2]
          cases h3 : findFirstSuggested o.suggested_next_ids (e :: es) with
          | some f => simp [h3]
          | none =>
            simp only [h3]
            cases h4 : (e :: es).filter (fun x => x.condition == "") with
            | cons f fs => simp [h4]
            | nil => simp [h4]
  · intro n o c g h
    simp [select_edge, h]

/-- C1 witness: the null-result conjunct applied to a node with no outgoing
edges. -/
theorem C1_edge_selection_priority_witness :
    select_edge { id := "n" } { status := .success } [] { edges := [] } = none :=
  C1_edge_selection_priority.2.1 { id := "n" } { status := .success } [] { edges := [] } rfl

/-- C6: the embedded evaluator is a total boolean function by construction
(every Python operation it uses is non-raising on `str`); an empty or
whitespace-only condition evaluates to true (conjunct 1); a bare-key clause
whose key resolves to the empty string is false (conjunct 2, the hypotheses
state in the parser's own terms that the clause contains no `=` or `!=`); an
equality clause whose key resolves to the empty string holds exactly when
its right-hand side is the empty string after stripping whitespace and
quotes (conjunct 3). -/
theorem C6_condition_evaluator :
    (∀ (cond : String) (o : Outcome) (c : Ctx),
      pystrip cond = "" → evaluate_condition cond o c = true) ∧
    (∀ (clause : String) (o : Outcome) (c : Ctx), pystrip clause = clause →
      pysplit "!=" clause = [clause] → pysplit "=" clause = [clause] →
      resolve_key clause o c = "" → evaluate_clause clause o c = false) ∧
    (∀ (clause key val : String) (o : Outcome) (c : Ctx), pystrip clause = clause →
      pysplit "!=" clause = [clause] → pysplit "=" clause = [key, val] →
      resolve_key (pystrip key) o c = "" →
      (evaluate_clause clause o c = true ↔ stripQuotes (pystrip val) = "")) := by
  refine ⟨?_, ?_, ?_⟩
  · intro cond o c h
    simp [evaluate_condition, h]
  · intro clause o c h1 h2 h3 h4
    simp [evaluate_clause, h1, h2, h3, h4]
  · intro clause key val o c h1 h2 h3 h4
    simp [evaluate_clause, h1, h2, h3, String.intercalate, h4]
    constructor
    · intro h5; exact h5.symm
    · intro h5; exact h5.symm

/-- C6 witness: a whitespace-only condition, an unknown bare key, and an
unknown key compared against the empty string, each at concrete inputs. -/
theorem C6_condition_evaluator_witness :
    evaluate_condition "   " { status := .success } [] = true ∧
    evaluate_clause "missing" { status := .success } [] = false ∧
    evaluate_clause "missing = \"\"" { status := .success } [] = true :=
  ⟨C6_condition_evaluator.1 "   " { status := .success } [] rfl,
    C6_condition_evaluator.2.1 "missing" { status := .success } [] rfl rfl rfl rfl,
    (C6_condition_evaluator.2.2 "missing = \"\"" "missing " " \"\""
      { status := .success } [] rfl rfl rfl rfl).mpr rfl⟩

/-- C10 (implicit): when no truthy guard matches and `preferred_label` is
non-empty, step 2 of `select_edge` returns the first declaration-order edge
whose normalized label matches — ignoring edge guards and weights (conjunct
1: the conclusion is a plain `find?` over all outgoing edges); concretely, an
earlier low-weight edge whose own guard evaluates false beats a later
guard-free weight-5 edge with the same label (conjunct 2). -/
theorem C10_preferred_label_first_match :
    (∀ (n : Node) (o : Outcome) (c : Ctx) (g : Graph) (e : Edge),
      (g.outgoing_edges n.id).filter
        (fun x => x.condition != "" && evaluate_condition x.condition o c) = [] →
      o.preferred_label ≠ "" →
      (g.outgoing_edges n.id).find?
        (fun x => normalize_label x.label == normalize_label o.preferred_label) = some e →
      select_edge n o c g = some e) ∧
    (select_edge { id := "n" } { status := .success, preferred_label := "yes" } []
      { edges := [⟨"n", "x", "yes", "outcome=fail", 0⟩, ⟨"n", "y", "yes", "", 5⟩] } =
      some ⟨"n", "x", "yes", "outcome=fail", 0⟩) := by
  constructor
  · intro n o c g e h1 h2 h3
    cases h : g.outgoing_edges n.id with
    | nil => rw [h] at h3; simp at h3
    | cons f fs =>
      rw [h] at h1 h3
      simp [select_edge, h, h1, h3, bne_iff_ne, h2]
  · rfl

/-- C10 witness: the general conjunct applied to the concrete two-edge
scenario of the second conjunct. -/
theorem C10_preferred_label_first_match_witness :
    select_edge { id := "n" } { status := .success, preferred_label := "yes" } []
      { edges := [⟨"n", "x", "yes", "outcome=fail", 0⟩, ⟨"n", "y", "yes", "", 5⟩] } =
      some ⟨"n", "x", "yes", "outcome=fail", 0⟩ :=
  C10_preferred_label_first_match.1 { id := "n" }
    { status := .success, preferred_label := "yes" } []
    { edges := [⟨"n", "x", "yes", "outcome=fail", 0⟩, ⟨"n", "y", "yes", "", 5⟩] }
    ⟨"n", "x", "yes", "outcome=fail", 0⟩ rfl (by simp) rfl

/-- C8: for a tool node with no registered executor (hypothesis `hreg`):
an absent or empty `tool_command` returns the missing-config FAIL without
consulting the command oracle at all (conjunct 1 quantifies over every
oracle); exit 0 returns SUCCESS with the `tool.output` update carrying
stdout+stderr; a non-zero exit returns FAIL carrying the output, or the exit
code when the output is empty; a timeout returns FAIL "Tool timed out". -/
theorem C8_tool_command_outcomes (executors : List (String × Except String Outcome))
    (runCmd : AttrVal → ExecResult) (node : Node) (cmd : AttrVal)
    (hreg : toolResolveExecutor executors node = none)
    (hcmd : (dictGet node.attrs "tool_command").getD (.s "") = cmd) :
    (attrTruthy (some cmd) = false →
      ∀ rc : AttrVal → ExecResult, toolExecute executors rc node =
        { status := .fail,
          failure_reason := "No tool_command or registered tool specified" }) ∧
    (attrTruthy (some cmd) = true →
      (∀ so se, runCmd cmd = .finished 0 so se →
        toolExecute executors runCmd node =
          { status := .success, context_updates := [("tool.output", so ++ se)],
            notes := "Tool completed: " ++ cmd.toStr }) ∧
      (∀ rc so se, runCmd cmd = .finished rc so se → rc ≠ 0 →
        toolExecute executors runCmd node =
          { status := .fail, context_updates := [("tool.output", so ++ se)],
            notes := "Tool completed: " ++ cmd.toStr,
            failure_reason :=
              if so ++ se != "" then so ++ se else "exit code " ++ toString rc }) ∧
      (runCmd cmd = .timedOut →
        toolExecute executors runCmd node =
          { status := .fail, failure_reason := "Tool timed out" })) := by
  refine ⟨?_, ?_⟩
  · intro hfalse rc
    simp [toolExecute, hreg, toolRunCommand, hcmd, hfalse]
  · intro htrue
    refine ⟨?_, ?_, ?_⟩
    · intro so se hfin
      simp [toolExecute, hreg, toolRunCommand, hcmd, htrue, hfin]
    · intro rc so se hfin hne
      simp [toolExecute, hreg, toolRunCommand, hcmd, htrue, hfin, hne]
    · intro htime
      simp [toolExecute, hreg, toolRunCommand, hcmd, htrue, htime]

/-- C8 witness: the four branches at concrete nodes and oracles (no
command; exit 0 with output; exit 2 with empty output; timeout). -/
theorem C8_tool_command_outcomes_witness :
    toolExecute [] (fun _ => .timedOut) { id := "t" } =
      { status := .fail,
        failure_reason := "No tool_command or registered tool specified" } ∧
    toolExecute [] (fun _ => .finished 0 "out" "err")
        { id := "t", attrs := [("tool_command", .s "make")] } =
      { status := .success, context_updates := [("tool.output", "outerr")],
        notes := "Tool completed: make" } ∧
    toolExecute [] (fun _ => .finished 2 "" "")
        { id := "t", attrs := [("tool_command", .s "make")] } =
      { status := .fail, context_updates := [("tool.output", "")],
        notes := "Tool completed: make", failure_reason := "exit code 2" } ∧
    toolExecute [] (fun _ => .timedOut)
        { id := "t", attrs := [("tool_command", .s "make")] } =
      { status := .fail, failure_reason := "Tool timed out" } :=
  ⟨(C8_tool_command_outcomes [] (fun _ => .timedOut) { id := "t" } (.s "")
      rfl rfl).1 rfl (fun _ => .timedOut),
    ((C8_tool_command_outcomes [] (fun _ => .finished 0 "out" "err")
      { id := "t", attrs := [("tool_command", .s "make")] } (.s "make")
      rfl rfl).2 rfl).1 "out" "err" rfl,
    ((C8_tool_command_outcomes [] (fun _ => .finished 2 "" "")
      { id := "t", attrs := [("tool_command", .s "make")] } (.s "make")
      rfl rfl).2 rfl).2.1 2 "" "" rfl (by decide),
    ((C8_tool_command_outcomes [] (fun _ => .timedOut)
      { id := "t", attrs := [("tool_command", .s "make")] } (.s "make")
      rfl rfl).2 rfl).2.2 rfl⟩

/-- Straight-line graph `start -> end` whose single stage succeeds. -/
def lineGraph : Graph :=
  { nodes := [("start", { id := "start", shape := "Mdiamond" }),
      ("end", { id := "end", shape := "Msquare" })],
    edges := [⟨"start", "end", "", "", 0⟩] }

/-- C9 counterexample: a concrete normally-completing run whose stored task
record is `completed` yet contains no `progress` event at all — the final
100%-progress event the claim says is appended never reaches the stored
record, because it is appended to the run-local list after `on_event`
re-bound the record's event list to a snapshot copy. -/
theorem C9_final_progress_not_stored :
    (runTask (fun _ c => ({ status := .success }, c)) lineGraph [] 10).status =
      "completed" ∧
    ∀ ev ∈ (runTask (fun _ c => ({ status := .success }, c)) lineGraph [] 10).events,
      ev.kind ≠ "progress" := by
  constructor
  · rfl
  · decide

/-- C9 (amended): when an exception escapes the engine the stored task
record becomes `failed` with the message in its result dict; when the engine
returns an Outcome — a goal-gate FAIL Outcome is a return, not an exception
— the record becomes `completed` and the structured result dict is stored.
The trailing `error` / 100%-`progress` event is appended to the run-local
list only: whenever the engine emitted at least one event, the stored
record's event list is the snapshot taken at the last engine event, without
the trailing event; the `error` event reaches the record exactly when the
exception escaped before any engine event (e.g. no start node). -/
theorem C9_task_runner_store (handler : Node → Ctx → Outcome × Ctx) (g : Graph)
    (ctx0 : Ctx) (fuel : Nat) :
    (∀ msg, (runEngine handler g (some ctx0) fuel).result = .err msg →
      (runTask handler g ctx0 fuel).status = "failed" ∧
      (runTask handler g ctx0 fuel).result =
        some [("status", "failed"), ("failure_reason", msg)] ∧
      ((runEngine handler g (some ctx0) fuel).events = [] →
        (runTask handler g ctx0 fuel).events = [⟨"error", [("message", msg)]⟩]) ∧
      ((runEngine handler g (some ctx0) fuel).events ≠ [] →
        (runTask handler g ctx0 fuel).events =
          taskEventsOf (runEngine handler g (some ctx0) fuel).events)) ∧
    (∀ o, (runEngine handler g (some ctx0) fuel).result = .ok o →
      (runTask handler g ctx0 fuel).status = "completed" ∧
      (runTask handler g ctx0 fuel).result =
        some (taskResultOf o (runEngine handler g (some ctx0) fuel).ctx) ∧
      ((runEngine handler g (some ctx0) fuel).events ≠ [] →
        (runTask handler g ctx0 fuel).events =
          taskEventsOf (runEngine handler g (some ctx0) fuel).events)) := by
  constructor
  · intro msg h
    refine ⟨by simp [runTask, h], by simp [runTask, h], ?_, ?_⟩
    · intro he
      simp [runTask, h, he, taskEventsOf]
    · intro hne
      cases hev : (runEngine handler g (some ctx0) fuel).events with
      | nil => exact absurd hev hne
      | cons e es => simp [runTask, h, hev]
  · intro o h
    refine ⟨by simp [runTask, h], by simp [runTask, h], ?_⟩
    intro hne
    cases hev : (runEngine handler g (some ctx0) fuel).events with
    | nil => exact absurd hev hne
    | cons e es => simp [runTask, h, hev]

/-- Demonstration graph for goal gating: `start -> crit -> end` where `crit`
carries a truthy `goal_gate` attribute. -/
def gateDemoGraph : Graph :=
  { nodes := [("start", { id := "start", shape := "Mdiamond" }),
      ("crit", { id := "crit", attrs := [("goal_gate", .b true)] }),
      ("end", { id := "end", shape := "Msquare" })],
    edges := [⟨"start", "crit", "", "", 0⟩, ⟨"crit", "end", "", "", 0⟩] }

/-- Handler returning RETRY at `crit` and SUCCESS elsewhere (RETRY is not a
FAIL, so the run routes on to the terminal, where the gate is checked). -/
def retryOnCrit : Node → Ctx → Outcome × Ctx :=
  fun n c => (if n.id == "crit" then { status := .retry } else { status := .success }, c)

/-- Graph with neither an `Mdiamond` node nor a `start`/`Start` id: the
engine raises before any stage runs. -/
def noStartGraph : Graph := { nodes := [("a", { id := "a" })] }

/-- C9 witness: the exception branch before any engine event (start-less
graph: the error event does reach the still-aliased stored list) and the
normal branch on a straight-line run (record `completed`). -/
theorem C9_task_runner_store_witness :
    (runTask (fun _ c => ({ status := .success }, c)) noStartGraph [] 1).events =
      [⟨"error", [("message", "No start node (shape=Mdiamond or id=start) found")]⟩] ∧
    (runTask (fun _ c => ({ status := .success }, c)) lineGraph [] 10).status =
      "completed" := by
  constructor
  · exact ((C9_task_runner_store (fun _ c => ({ status := .success }, c))
      noStartGraph [] 1).1 "No start node (shape=Mdiamond or id=start) found"
      rfl).2.2.1 rfl
  · exact ((C9_task_runner_store (fun _ c => ({ status := .success }, c))
      lineGraph [] 10).2 { status := .success } rfl).1

/-- `resolve_key` reads an Outcome only through `status` and
`preferred_label`. -/
theorem resolve_key_ignores_suggested (key : String) (o : Outcome) (l : List String)
    (c : Ctx) :
    resolve_key key { o with suggested_next_ids := l } c = resolve_key key o c := by
  simp [resolve_key]

theorem evaluate_clause_ignores_suggested (clause : String) (o : Outcome)
    (l : List String) (c : Ctx) :
    evaluate_clause clause { o with suggested_next_ids := l } c =
      evaluate_clause clause o c := by
  simp [evaluate_clause, resolve_key_ignores_suggested]

theorem evaluate_condition_ignores_suggested (cond : String) (o : Outcome)
    (l : List String) (c : Ctx) :
    evaluate_condition cond { o with suggested_next_ids := l } c =
      evaluate_condition cond o c := by
  simp [evaluate_condition, evaluate_clause_ignores_suggested]

theorem failRouteEdges_ignores_suggested (nid : String) (o : Outcome)
    (l : List String) (c : Ctx) (g : Graph) :
    failRouteEdges nid { o with suggested_next_ids := l } c g =
      failRouteEdges nid o c g := by
  simp [failRouteEdges, evaluate_condition_ignores_suggested]

/-- The sorting key reads neither edge's label. -/
theorem edgeBetter_relabel (f : Edge → String) (a b : Edge) :
    edgeBetter { a with label := f a } { b with label := f b } = edgeBetter a b := by
  simp [edgeBetter]

theorem filter_map_swap (φ : Edge → Edge) (p : Edge → Bool) (hp : ∀ x, p (φ x) = p x) :
    ∀ l : List Edge, (l.map φ).filter p = (l.filter p).map φ := by
  intro l
  induction l with
  | nil => rfl
  | cons x xs ih =>
    by_cases h : p x = true
    · simp [h, hp, ih]
    · simp only [List.map_cons, List.filter_cons, hp x, h]
      simp only [Bool.false_eq_true, if_false, ih]

/-- The stable-minimum selection commutes with a key-preserving edge map. -/
theorem pickByWeight_map (φ : Edge → Edge)
    (hkey : ∀ a b, edgeBetter (φ a) (φ b) = edgeBetter a b) :
    ∀ (es : List Edge) (e : Edge), pickByWeight (φ e) (es.map φ) = φ (pickByWeight e es) := by
  intro es
  induction es with
  | nil => intro e; rfl
  | cons x xs ih =>
    intro e
    simp only [List.map_cons, pickByWeight, List.foldl_cons, hkey]
    by_cases h : edgeBetter x e = true
    · simpa [h, pickByWeight] using ih x
    · simpa [h, pickByWeight] using ih e

/-- Relabelling every edge maps the fail-route candidate set pointwise. -/
theorem failRouteEdges_relabel (nid : String) (o : Outcome) (c : Ctx) (g : Graph)
    (f : Edge → String) :
    failRouteEdges nid o c
        { g with edges := g.edges.map (fun x => { x with label := f x }) } =
      (failRouteEdges nid o c g).map (fun x => { x with label := f x }) := by
  simp only [failRouteEdges, Graph.outgoing_edges]
  rw [filter_map_swap (fun x => { x with label := f x })
      (fun e => e.from_node == nid) (fun x => rfl)]
  rw [filter_map_swap (fun x => { x with label := f x })
      (fun e => e.condition != "" && evaluate_condition e.condition o c) (fun x => rfl)]

/-- C5: at a non-terminal stage whose handler returns a FAIL Outcome:
if some outgoing edge has a truthy guard that evaluates true against the
FAIL Outcome and the updated context, the loop continues at the
(weight DESC, to_node ASC) choice of the guard-matched set (conjunct 1);
otherwise the run stops with the fatal error
`Stage '<id>' failed: <failure_reason>` (conjunct 2).  The FAIL path
consults neither `suggested_next_ids` (conjunct 3: the candidate set is
invariant under replacing them) nor the preferred-label machinery
(conjunct 4: relabelling every edge never changes the chosen destination). -/
theorem C5_fail_routing (handler : Node → Ctx → Outcome × Ctx) (g : Graph)
    (fuel : Nat) (cur : String) (ctx : Ctx) (recd : List (String × Outcome))
    (evs : List Event) (lo : Option Outcome) (node : Node) (o : Outcome) (ctx1 : Ctx)
    (hn : g.get_node cur = some node) (ht : g.is_terminal cur = false)
    (hh : handler node ctx = (o, ctx1)) (hf : o.status = .fail) :
    (∀ e es, failRouteEdges node.id o (stepContext ctx1 o) g = e :: es →
      runLoop handler g (fuel + 1) cur ctx recd evs lo =
        runLoop handler g fuel (pickByWeight e es).to_node (stepContext ctx1 o)
          (dictSet recd cur o) (evs ++ [startedEvent node, completedEvent node o])
          (some o)) ∧
    (failRouteEdges node.id o (stepContext ctx1 o) g = [] →
      runLoop handler g (fuel + 1) cur ctx recd evs lo =
        { result := .err ("Stage '" ++ node.id ++ "' failed: " ++ o.failure_reason),
          events := evs ++ [startedEvent node, completedEvent node o],
          ctx := stepContext ctx1 o, recorded := dictSet recd cur o,
          finalNode := cur, atTerminal := false }) ∧
    (∀ l, failRouteEdges node.id { o with suggested_next_ids := l }
        (stepContext ctx1 o) g = failRouteEdges node.id o (stepContext ctx1 o) g) ∧
    (∀ (f : Edge → String) (e es e' es'),
      failRouteEdges node.id o (stepContext ctx1 o) g = e :: es →
      failRouteEdges node.id o (stepContext ctx1 o)
        { g with edges := g.edges.map (fun x => { x with label := f x }) } = e' :: es' →
      (pickByWeight e' es').to_node = (pickByWeight e es).to_node) := by
  refine ⟨?_, ?_, ?_, ?_⟩
  · intro e es hroute
    simp [runLoop, hn, ht, hh, hf, hroute]
  · intro hroute
    simp [runLoop, hn, ht, hh, hf, hroute]
  · intro l
    exact failRouteEdges_ignores_suggested node.id o l (stepContext ctx1 o) g
  · intro f e es e' es' h1 h2
    rw [failRouteEdges_relabel, h1] at h2
    simp only [List.map_cons, List.cons.injEq] at h2
    obtain ⟨he, hes⟩ := h2
    rw [← he, ← hes, pickByWeight_map _ (edgeBetter_relabel f)]

/-- A handler that FAILs everywhere with reason `boom`. -/
def failingHandler : Node → Ctx → Outcome × Ctx :=
  fun _ c => ({ status := .fail, failure_reason := "boom" }, c)

/-- A single box node whose only outgoing edge is unconditional, so the FAIL
path finds no guarded route. -/
def noFailRouteGraph : Graph :=
  { nodes := [("a", { id := "a" })], edges := [⟨"a", "b", "", "", 0⟩] }

/-- C5 witness: the no-route conjunct at a concrete failing stage — the run
stops with the fatal `Stage 'a' failed: boom` error. -/
theorem C5_fail_routing_witness :
    runLoop failingHandler noFailRouteGraph 3 "a" [] [] [] none =
      { result := .err "Stage 'a' failed: boom",
        events := [startedEvent { id := "a" },
          completedEvent { id := "a" } { status := .fail, failure_reason := "boom" }],
        ctx := [("outcome", "fail")],
        recorded := [("a", { status := .fail, failure_reason := "boom" })],
        finalNode := "a", atTerminal := false } :=
  (C5_fail_routing failingHandler noFailRouteGraph 2 "a" [] [] [] none
    { id := "a" } { status := .fail, failure_reason := "boom" } []
    rfl rfl rfl rfl).2.1 rfl

/-- Every run that stops via the terminal branch produced, after the given
event prefix, only stage lifecycle events followed by exactly one final
event: `PipelineFailed` with the gate-failure outcome when the goal-gate
scan finds a violation among the recorded outcomes, else
`PipelineCompleted` with an ok result. -/
theorem runLoop_terminal_shape (handler : Node → Ctx → Outcome × Ctx) (g : Graph) :
    ∀ (fuel : Nat) (cur : String) (ctx : Ctx) (recd : List (String × Outcome))
      (evs : List Event) (lo : Option Outcome),
      (runLoop handler g fuel cur ctx recd evs lo).atTerminal = true →
      ∃ mid : List Event,
        (∀ ev ∈ mid, ev.kind = "StageStarted" ∨ ev.kind = "StageCompleted") ∧
        (∀ p, goalGateFail (runLoop handler g fuel cur ctx recd evs lo).recorded g = some p →
            (runLoop handler g fuel cur ctx recd evs lo).result =
              .ok (gateFailOutcome p.1 p.2) ∧
            (runLoop handler g fuel cur ctx recd evs lo).events =
              evs ++ mid ++ [pipelineFailedEvent p.1 (gateFailOutcome p.1 p.2).failure_reason]) ∧
        (goalGateFail (runLoop handler g fuel cur ctx recd evs lo).recorded g = none →
            (∃ o, (runLoop handler g fuel cur ctx recd evs lo).result = .ok o) ∧
            (runLoop handler g fuel cur ctx recd evs lo).events =
              evs ++ mid ++ [pipelineCompletedEvent
                (runLoop handler g fuel cur ctx recd evs lo).finalNode]) := by
  intro fuel
  induction fuel with
  | zero =>
    intro cur ctx recd evs lo h
    simp [runLoop] at h
  | succ n ih =>
    intro cur ctx recd evs lo h
    cases hn : g.get_node cur with
    | none =>
      rw [show runLoop handler g (n + 1) cur ctx recd evs lo =
        ⟨.err ("Node not found: " ++ cur), evs, ctx, recd, cur, false⟩ by
          simp [runLoop, hn]] at h
      simp at h
    | some node =>
      cases ht : g.is_terminal cur with
      | true =>
        cases hg : goalGateFail recd g with
        | some p =>
          have hrun : runLoop handler g (n + 1) cur ctx recd evs lo =
              ⟨.ok (gateFailOutcome p.1 p.2),
                evs ++ [pipelineFailedEvent p.1 (gateFailOutcome p.1 p.2).failure_reason],
                ctx, recd, cur, true⟩ := by
            simp [runLoop, hn, ht, hg]
          rw [hrun]
          refine ⟨[], by simp, ?_, ?_⟩
          · intro p' hp'
            simp only at hp'
            rw [hg] at hp'
            cases hp'
            simp
          · intro hnone
            simp only at hnone
            rw [hg] at hnone
            cases hnone
        | none =>
          have hrun : runLoop handler g (n + 1) cur ctx recd evs lo =
              ⟨.ok (lo.getD pipelineCompletedOutcome),
                evs ++ [pipelineCompletedEvent cur], ctx, recd, cur, true⟩ := by
            simp [runLoop, hn, ht, hg]
          rw [hrun]
          refine ⟨[], by simp, ?_, ?_⟩
          · intro p' hp'
            simp only at hp'
            rw [hg] at hp'
            cases hp'
          · intro _
            exact ⟨⟨lo.getD pipelineCompletedOutcome, rfl⟩, by simp⟩
      | false =>
        cases hfail : ((handler node ctx).1.status == StageStatus.fail) with
        | true =>
          cases hroute : failRouteEdges node.id (handler node ctx).1
              (stepContext (handler node ctx).2 (handler node ctx).1) g with
          | nil =>
            rw [show runLoop handler g (n + 1) cur ctx recd evs lo =
              ⟨.err ("Stage '" ++ node.id ++ "' failed: " ++ (handler node ctx).1.failure_reason),
                evs ++ [startedEvent node] ++ [completedEvent node (handler node ctx).1],
                stepContext (handler node ctx).2 (handler node ctx).1,
                dictSet recd cur (handler node ctx).1, cur, false⟩ by
                simp [runLoop, hn, ht, hfail, hroute]] at h
            simp at h
          | cons e es =>
            have hrun : runLoop handler g (n + 1) cur ctx recd evs lo =
                runLoop handler g n (pickByWeight e es).to_node
                  (stepContext (handler node ctx).2 (handler node ctx).1)
                  (dictSet recd cur (handler node ctx).1)
                  (evs ++ [startedEvent node, completedEvent node (handler node ctx).1])
                  (some (handler node ctx).1) := by
              simp [runLoop, hn, ht, hfail, hroute]
            rw [hrun] at h ⊢
            obtain ⟨mid', hk, hs, hc⟩ := ih _ _ _ _ _ h
            refine ⟨[startedEvent node, completedEvent node (handler node ctx).1] ++ mid',
              ?_, ?_, ?_⟩
            · intro ev hev
              simp only [List.mem_append, List.mem_cons, List.not_mem_nil,
                or_false] at hev
              rcases hev with (h1 | h1) | h2
              · subst h1; left; rfl
              · subst h1; right; rfl
              · exact hk ev h2
            · intro p hp
              obtain ⟨hr, he⟩ := hs p hp
              exact ⟨hr, by rw [he]; simp⟩
            · intro hp
              obtain ⟨ho, he⟩ := hc hp
              exact ⟨ho, by rw [he]; simp⟩
        | false =>
          cases hsel : select_edge node (handler node ctx).1
              (stepContext (handler node ctx).2 (handler node ctx).1) g with
          | none =>
            rw [show runLoop handler g (n + 1) cur ctx recd evs lo =
              ⟨.ok (handler node ctx).1,
                evs ++ [startedEvent node] ++ [completedEvent node (handler node ctx).1] ++
                  [pipelineCompletedEvent cur],
                stepContext (handler node ctx).2 (handler node ctx).1,
                dictSet recd cur (handler node ctx).1, cur, false⟩ by
                simp [runLoop, hn, ht, hfail, hsel]] at h
            simp at h
          | some e =>
            have hrun : runLoop handler g (n + 1) cur ctx recd evs lo =
                runLoop handler g n e.to_node
                  (stepContext (handler node ctx).2 (handler node ctx).1)
                  (dictSet recd cur (handler node ctx).1)
                  (evs ++ [startedEvent node, completedEvent node (handler node ctx).1])
                  (some (handler node ctx).1) := by
              simp [runLoop, hn, ht, hfail, hsel]
            rw [hrun] at h ⊢
            obtain ⟨mid', hk, hs, hc⟩ := ih _ _ _ _ _ h
            refine ⟨[startedEvent node, completedEvent node (handler node ctx).1] ++ mid',
              ?_, ?_, ?_⟩
            · intro ev hev
              simp only [List.mem_append, List.mem_cons, List.not_mem_nil,
                or_false] at hev
              rcases hev with (h1 | h1) | h2
              · subst h1; left; rfl
              · subst h1; right; rfl
              · exact hk ev h2
            · intro p hp
              obtain ⟨hr, he⟩ := hs p hp
              exact ⟨hr, by rw [he]; simp⟩
            · intro hp
              obtain ⟨ho, he⟩ := hc hp
              exact ⟨ho, by rw [he]; simp⟩


/-- Spec-side phrasing of a goal-gate violation. -/
def gateViolation (recorded : List (String × Outcome)) (g : Graph)
    (p : String × Outcome) : Prop :=
  p ∈ recorded ∧ ∃ n, g.get_node p.1 = some n ∧
    attrTruthy (dictGet n.attrs "goal_gate") = true ∧
    p.2.status ≠ .success ∧ p.2.status ≠ .partSuccess

theorem gateCheckPred_iff (g : Graph) (p : String × Outcome) :
    gateCheckPred g p = true ↔
    (∃ n, g.get_node p.1 = some n ∧ attrTruthy (dictGet n.attrs "goal_gate") = true ∧
      p.2.status ≠ .success ∧ p.2.status ≠ .partSuccess) := by
  unfold gateCheckPred
  cases h : g.get_node p.1 <;> simp [h, and_assoc]

theorem goalGateFail_some_violation {recorded : List (String × Outcome)} {g : Graph}
    {p : String × Outcome} (h : goalGateFail recorded g = some p) :
    gateViolation recorded g p := by
  unfold goalGateFail at h
  exact ⟨List.mem_of_find?_eq_some h, (gateCheckPred_iff g p).mp (List.find?_some h)⟩

theorem violation_goalGateFail_isSome {recorded : List (String × Outcome)} {g : Graph}
    (h : ∃ p, gateViolation recorded g p) : (goalGateFail recorded g).isSome := by
  obtain ⟨p, hmem, hpred⟩ := h
  exact List.find?_isSome.mpr ⟨p, hmem, (gateCheckPred_iff g p).mpr hpred⟩

/-- C2: for every run that reaches a terminal node (`atTerminal`): if some
recorded node violates its goal gate (truthy `attrs.goal_gate`, outcome
neither SUCCESS nor PARTIAL_SUCCESS), the engine returns a FAIL Outcome
whose failure_reason is `Goal gate unsatisfied at node '<id>':
<reason-or-status>` and the event stream carries a `PipelineFailed` and no
`PipelineCompleted`; with no violation the run completes normally
(ok result, `PipelineCompleted`, no `PipelineFailed`). -/
theorem C2_goal_gate_soundness (handler : Node → Ctx → Outcome × Ctx) (g : Graph) (c : Option Ctx)
    (fuel : Nat) (hterm : (runEngine handler g c fuel).atTerminal = true) :
    ((∃ p, gateViolation (runEngine handler g c fuel).recorded g p) →
      ∃ p, gateViolation (runEngine handler g c fuel).recorded g p ∧
        (runEngine handler g c fuel).result = .ok (gateFailOutcome p.1 p.2) ∧
        (gateFailOutcome p.1 p.2).status = .fail ∧
        (gateFailOutcome p.1 p.2).failure_reason =
          "Goal gate unsatisfied at node '" ++ p.1 ++ "': " ++
            (if p.2.failure_reason != "" then p.2.failure_reason else p.2.status.value) ∧
        (∃ ev ∈ (runEngine handler g c fuel).events, ev.kind = "PipelineFailed") ∧
        (∀ ev ∈ (runEngine handler g c fuel).events, ev.kind ≠ "PipelineCompleted")) ∧
    ((¬ ∃ p, gateViolation (runEngine handler g c fuel).recorded g p) →
      (∃ o, (runEngine handler g c fuel).result = .ok o) ∧
      (∃ ev ∈ (runEngine handler g c fuel).events, ev.kind = "PipelineCompleted") ∧
      (∀ ev ∈ (runEngine handler g c fuel).events, ev.kind ≠ "PipelineFailed")) := by
  cases hs : g.find_start_node with
  | none =>
    have hrE : runEngine handler g c fuel =
        ⟨.err "No start node (shape=Mdiamond or id=start) found", [],
          ctxSet (ctxSet (c.getD []) "graph.goal" g.goal) "graph.label" g.label,
          [], "", false⟩ := by
      simp [runEngine, hs]
    rw [hrE] at hterm
    simp at hterm
  | some start_id =>
    have hrE : runEngine handler g c fuel =
        runLoop handler g fuel start_id
          (ctxSet (ctxSet (c.getD []) "graph.goal" g.goal) "graph.label" g.label)
          [] [] none := by
      simp [runEngine, hs]
    rw [hrE] at hterm ⊢
    obtain ⟨mid, hk, hsome, hnone⟩ :=
      runLoop_terminal_shape handler g fuel start_id _ [] [] none hterm
    cases hg : goalGateFail
        (runLoop handler g fuel start_id
          (ctxSet (ctxSet (c.getD []) "graph.goal" g.goal) "graph.label" g.label)
          [] [] none).recorded g with
    | some p =>
      obtain ⟨hr, he⟩ := hsome p hg
      constructor
      · intro _
        refine ⟨p, goalGateFail_some_violation hg, hr, rfl, rfl, ?_, ?_⟩
        · rw [he]
          exact ⟨pipelineFailedEvent p.1 (gateFailOutcome p.1 p.2).failure_reason,
            by simp, rfl⟩
        · intro ev hev
          rw [he] at hev
          simp only [List.nil_append, List.mem_append, List.mem_singleton] at hev
          rcases hev with h1 | h1
          · rcases hk ev h1 with h2 | h2 <;> simp [h2]
          · subst h1; simp [pipelineFailedEvent]
      · intro hno
        exact absurd ⟨p, goalGateFail_some_violation hg⟩ hno
    | none =>
      obtain ⟨⟨o, ho⟩, he⟩ := hnone hg
      constructor
      · intro hv
        have hsm := violation_goalGateFail_isSome hv
        rw [hg] at hsm
        simp at hsm
      · intro _
        refine ⟨⟨o, ho⟩, ?_, ?_⟩
        · rw [he]
          refine ⟨pipelineCompletedEvent (runLoop handler g fuel start_id
              (ctxSet (ctxSet (c.getD []) "graph.goal" g.goal) "graph.label" g.label)
              [] [] none).finalNode, by simp, rfl⟩
        · intro ev hev
          rw [he] at hev
          simp only [List.nil_append, List.mem_append, List.mem_singleton] at hev
          rcases hev with h1 | h1
          · rcases hk ev h1 with h2 | h2 <;> simp [h2]
          · subst h1; simp [pipelineCompletedEvent]

/-- C2 witness: the `start -> crit -> end` run whose goal-gated `crit` stage
returns RETRY reaches the terminal and fails the gate. -/
theorem C2_goal_gate_soundness_witness :
    ∃ p : String × Outcome, (runEngine retryOnCrit gateDemoGraph (some []) 10).result =
        .ok (gateFailOutcome p.1 p.2) ∧
      ∃ ev ∈ (runEngine retryOnCrit gateDemoGraph (some []) 10).events,
        ev.kind = "PipelineFailed" := by
  obtain ⟨p, _, hr, _, _, hev, _⟩ :=
    (C2_goal_gate_soundness retryOnCrit gateDemoGraph (some []) 10 rfl).1
      ⟨("crit", { status := .retry }),
        by decide,
        { id := "crit", attrs := [("goal_gate", .b true)] },
        rfl, rfl, by decide, by decide⟩
  exact ⟨p, hr, hev⟩

end RTF
